import Mathlib

/-!
Shallow embedding of the CloudTrail detection-engine Lambda
(`src/LambdaCloudTrailProcess.py`) together with the near-duplicate matcher
`matching_rule` from `src/lambda/LambdaCloudTrailProcess copy.py`.

Python values flowing through the handler are JSON-like; we model them with
an inductive `Json` type.  Python dict `.get`, truthiness, `records[0]`
indexing, `for` iteration, `json.dumps` (default separators, ensure_ascii)
and f-string `str()` rendering are each given an explicit model.  Raised
Python exceptions are modelled as `Except String`; the exception payload
string abbreviates the Python exception class (the exact `str(e)` text of an
exception is not modelled, only that some exception is raised and caught).

The S3 fetch + gzip + `json.loads` stage is modelled by an oracle
(`Env.fetchResult`): for the given bucket and key it reports either one of
the three failure modes, each of which makes `fetch_cloudtrail_log` return
`None` in the source, or the parsed JSON document.  SNS publish outcomes are
an oracle `Env.publishOk` indexed by the number of `sns.publish` calls made
so far in the invocation.  Every externally visible capability call is
recorded in an `Effect` trace.
-/

/-- JSON-like Python value. -/
inductive Json where
  | null
  | bool (b : Bool)
  | num (n : Int)
  | str (s : String)
  | arr (elems : List Json)
  | obj (fields : List (String × Json))

/-- First-match association lookup: model of Python `dict` access for dicts
built from parsed JSON (which have no duplicate keys). -/
def lookupField : List (String × Json) → String → Option Json
  | [], _ => none
  | (k, v) :: rest, key => if k = key then some v else lookupField rest key

/-- Python truthiness of a JSON-like value (`if not x`). -/
def Json.truthy : Json → Bool
  | .null => false
  | .bool b => b
  | .num n => n != 0
  | .str s => s != ""
  | .arr xs => !xs.isEmpty
  | .obj fs => !fs.isEmpty

/-- Truthiness of an optional value (`dict.get` result used in `if not x`). -/
def optTruthy : Option Json → Bool
  | none => false
  | some v => v.truthy

/-- Lower-case hex digit. -/
def hexDigit (n : Nat) : Char :=
  if n < 10 then Char.ofNat (48 + n) else Char.ofNat (87 + n)

/-- Four lower-case hex digits, as in Python's `\uXXXX` escapes. -/
def toHex4 (n : Nat) : String :=
  String.mk [hexDigit (n / 4096 % 16), hexDigit (n / 256 % 16),
             hexDigit (n / 16 % 16), hexDigit (n % 16)]

/-- Escape one character the way Python `json.dumps` (ensure_ascii=True)
does: named escapes for quote, backslash and the usual control characters,
`\uXXXX` (surrogate pairs above U+FFFF) for everything outside printable
ASCII. -/
def escapeChar (c : Char) : String :=
  if c = '"' then "\\\""
  else if c = '\\' then "\\\\"
  else if c = '\n' then "\\n"
  else if c = '\r' then "\\r"
  else if c = '\t' then "\\t"
  else if c.toNat = 8 then "\\b"
  else if c.toNat = 12 then "\\f"
  else if c.toNat < 32 || c.toNat > 126 then
    if c.toNat ≥ 65536 then
      let v := c.toNat - 65536
      "\\u" ++ toHex4 (55296 + v / 1024) ++ "\\u" ++ toHex4 (56320 + v % 1024)
    else
      "\\u" ++ toHex4 c.toNat
  else String.mk [c]

/-- Python `json.dumps` rendering of a string literal. -/
def quoteStr (s : String) : String :=
  "\"" ++ String.join (s.toList.map escapeChar) ++ "\""

/-- Python `", ".join(parts)`: the comma-space separated concatenation used
by `json.dumps` (default separators) and by `repr` of containers. -/
def joinComma : List String → String
  | [] => ""
  | [x] => x
  | x :: y :: rest => x ++ ", " ++ joinComma (y :: rest)

mutual

/-- Model of Python `json.dumps(v)` with the default separators
`", "` / `": "` and `ensure_ascii=True`. -/
def json_dumps : Json → String
  | .null => "null"
  | .bool b => if b then "true" else "false"
  | .num n => toString n
  | .str s => quoteStr s
  | .arr xs => "[" ++ joinComma (dumpsList xs) ++ "]"
  | .obj fs => "\x7b" ++ joinComma (dumpsFields fs) ++ "\x7d"

/-- `json.dumps` of each element of a JSON array. -/
def dumpsList : List Json → List String
  | [] => []
  | x :: xs => json_dumps x :: dumpsList xs

/-- `json.dumps` of each `"key": value` entry of a JSON object. -/
def dumpsFields : List (String × Json) → List String
  | [] => []
  | (k, v) :: fs => (quoteStr k ++ ": " ++ json_dumps v) :: dumpsFields fs

end

mutual

/-- Python `repr()` of a JSON-like value (how containers render inside
f-strings).  Strings render between single quotes; the rare additional
escaping Python applies to quotes/control characters inside `repr` of a
string is not modelled. -/
def pyRepr : Json → String
  | .null => "None"
  | .bool b => if b then "True" else "False"
  | .num n => toString n
  | .str s => "'" ++ s ++ "'"
  | .arr xs => "[" ++ joinComma (pyReprList xs) ++ "]"
  | .obj fs => "\x7b" ++ joinComma (pyReprFields fs) ++ "\x7d"

/-- `repr()` of each element of a list. -/
def pyReprList : List Json → List String
  | [] => []
  | x :: xs => pyRepr x :: pyReprList xs

/-- `repr()` of each `'key': value` entry of a dict. -/
def pyReprFields : List (String × Json) → List String
  | [] => []
  | (k, v) :: fs => ("'" ++ k ++ "': " ++ pyRepr v) :: pyReprFields fs

end

/-- Python `str()` of a JSON-like value, as used by f-string interpolation. -/
def pyStr : Json → String
  | .str s => s
  | v => pyRepr v

/-- Outcome of the S3-download + gzip + `json.loads` pipeline inside
`fetch_cloudtrail_log` for a given bucket/key: the `s3.get_object` call can
raise (`fetchError`), `gzip.decompress` can raise on corrupt or non-gzip
bytes (`gzipError`), `json.loads` can raise on bytes that are not valid
JSON (`jsonError`), or the parsed document is produced. -/
inductive FetchResult where
  | fetchError
  | gzipError
  | jsonError
  | ok (data : Json)

/-- `FetchResult` is one of the three failure modes. -/
def FetchResult.isErr : FetchResult → Bool
  | .ok _ => false
  | _ => true

/-- Externally visible capability calls made during one invocation. -/
inductive Effect where
  | fetch (bucket key : Json)
  | sendAttempt (record : Json)
  | publish (topicArn message subject : String) (delivered : Bool)

/-- Process environment and external-world oracles: the `SnsArn` environment
variable (read once at process start, may be unset), the storage/gzip/JSON
outcome per bucket and key, and the delivery outcome of the n-th
`sns.publish` call of the invocation. -/
structure Env where
  sns_topic_arn : Option String
  fetchResult : Json → Json → FetchResult
  publishOk : Nat → Bool

/-- Python `d.get(key)` (single-argument form): `None` when the key is
absent; raises `AttributeError` when the receiver is not a dict. -/
def pyGet : Json → String → Except String (Option Json)
  | .obj fs, k => .ok (lookupField fs k)
  | _, _ => .error "AttributeError"

/-- Python `d.get(key, default)`: the default only replaces an *absent*
key; raises `AttributeError` when the receiver is not a dict. -/
def pyGetD (v : Json) (k : String) (d : Json) : Except String Json :=
  match v with
  | .obj fs => .ok ((lookupField fs k).getD d)
  | _ => .error "AttributeError"

/-- Python `x[0]`: first element of a list, first character of a string
(as a 1-character string); `IndexError` when empty, `KeyError` for a dict
whose keys are strings, `TypeError` otherwise. -/
def pyIndex0 : Json → Except String Json
  | .arr (x :: _) => .ok x
  | .arr [] => .error "IndexError"
  | .str s =>
      match s.toList with
      | c :: _ => .ok (.str (String.mk [c]))
      | [] => .error "IndexError"
  | .obj _ => .error "KeyError"
  | _ => .error "TypeError"

/-- Python `for x in v`: a list yields its elements, a string its characters
as 1-character strings, a dict its keys; other values raise `TypeError`. -/
def iterElems : Json → Except String (List Json)
  | .arr xs => .ok xs
  | .str s => .ok (s.toList.map (fun c => Json.str (String.mk [c])))
  | .obj fs => .ok (fs.map (fun kv => Json.str kv.1))
  | _ => .error "TypeError"

/-- `fetch_cloudtrail_log(bucket, key)` (`src/LambdaCloudTrailProcess.py`
lines 15-53): every failure mode of download, decompression or JSON
decoding is caught inside the function and turned into `None`; success
returns the parsed document. -/
def fetch_cloudtrail_log (env : Env) (bucket key : Json) : Option Json :=
  match env.fetchResult bucket key with
  | .ok data => some data
  | _ => none

/-- The hard-coded watch list of `process_cloudtrail_event`
(`src/LambdaCloudTrailProcess.py` line 67). -/
def criteria_events : List String :=
  ["StopLogging", "UpdateTrail", "ConsoleLogin", "DeleteTrail"]

/-- `process_cloudtrail_event(record)` (`src/LambdaCloudTrailProcess.py`
lines 55-71): `record.get('eventName')` followed by membership in the
hard-coded list.  A non-dict record raises `AttributeError` (uncaught in
this function).  Python `in` compares with `==`, so only string values can
equal the watch-list strings. -/
def process_cloudtrail_event : Json → Except String Bool
  | .obj fields =>
      .ok (match lookupField fields "eventName" with
           | some (.str s) => criteria_events.contains s
           | _ => false)
  | _ => .error "AttributeError"

/-- `matching_rule(record)` from the near-duplicate
`src/lambda/LambdaCloudTrailProcess copy.py` lines 45-63: same lookup
against the same four-element `criteria_events` list. -/
def matching_rule : Json → Except String Bool
  | .obj fields =>
      .ok (match lookupField fields "eventName" with
           | some (.str s) =>
               ["StopLogging", "UpdateTrail", "ConsoleLogin", "DeleteTrail"].contains s
           | _ => false)
  | _ => .error "AttributeError"

/-- The SNS subject line `f"CloudTrail Event: {record.get('eventName', 'Unknown')}"`
for a dict record: the stored value rendered by `str()` (the `'Unknown'`
default only applies when the key is absent). -/
def mkSubject (fields : List (String × Json)) : String :=
  "CloudTrail Event: " ++
    (match lookupField fields "eventName" with
     | some v => pyStr v
     | none => "Unknown")

/-- `send_to_sns(record)` (`src/LambdaCloudTrailProcess.py` lines 73-96),
as the list of capability calls it makes.  If `sns_topic_arn` is unset or
empty (Python falsy) the function returns before publishing.  Otherwise
`json.dumps(record, default=str)` and the subject are computed and
`sns.publish` is called once; a delivery failure is caught and logged, so
the caller observes nothing.  For a non-dict record the subject computation
raises `AttributeError`, which the function's own `except` swallows before
any publish happens. -/
def send_to_sns (env : Env) (pubIdx : Nat) (record : Json) : List Effect :=
  match env.sns_topic_arn with
  | none => []
  | some t =>
      if t = "" then []
      else
        match record with
        | .obj fs =>
            [.publish t (json_dumps record) (mkSubject fs) (env.publishOk pubIdx)]
        | _ => []

/-- The record loop of `lambda_handler` (`src/LambdaCloudTrailProcess.py`
lines 160-169): returns the number of records processed and matched in the
remaining list together with the capability calls made, or the uncaught
exception of `process_cloudtrail_event` (the counts accumulated before an
exception are never observable, the outer handler returns 500).  `pubIdx`
numbers the `sns.publish` calls already made, to index the delivery
oracle. -/
def processLoop (env : Env) (pubIdx : Nat) :
    List Json → Except String (Nat × Nat) × List Effect
  | [] => (.ok (0, 0), [])
  | r :: rest =>
      match process_cloudtrail_event r with
      | .error e => (.error e, [])
      | .ok false =>
          let (out, effs) := processLoop env pubIdx rest
          (out.map (fun pm => (pm.1 + 1, pm.2)), effs)
      | .ok true =>
          let sendEffs := send_to_sns env pubIdx r
          let (out, effs) := processLoop env (pubIdx + sendEffs.length) rest
          (out.map (fun pm => (pm.1 + 1, pm.2 + 1)),
           (.sendAttempt r :: sendEffs) ++ effs)

/-- Invocation result: HTTP-style status code and JSON body string. -/
structure LambdaResult where
  statusCode : Nat
  body : String

/-- The `except Exception` catch-all of `lambda_handler` (lines 177-182):
status 500 with the exception interpolated into the body. -/
def catchAll (e : String) (effs : List Effect) : LambdaResult × List Effect :=
  ({ statusCode := 500,
     body := json_dumps (.obj [("error", .str ("Error processing S3 event: " ++ e))]) },
   effs)

/-- `lambda_handler(event, context)` (`src/LambdaCloudTrailProcess.py`
lines 109-182), returning the response dict and the trace of capability
calls.  Mirrors the source line by line: `event.get('Records', [])` and the
emptiness check, `records[0]`, the nested `.get` chain for bucket and key,
the falsy check returning 400, `fetch_cloudtrail_log` with `None` mapped to
500, then the record loop and the 200 response quoting `matching_count`.
Any exception escaping a step is caught by the outer `except` as a 500. -/
def lambda_handler (env : Env) (event : Json) : LambdaResult × List Effect :=
  match pyGetD event "Records" (.arr []) with
  | .error e => catchAll e []
  | .ok records =>
  if !records.truthy then
    ({ statusCode := 200,
       body := json_dumps (.obj [("message", .str "No S3 records to process.")]) }, [])
  else
  match pyIndex0 records with
  | .error e => catchAll e []
  | .ok first_record =>
  match pyGetD first_record "s3" (.obj []) with
  | .error e => catchAll e []
  | .ok s3_info =>
  match pyGetD s3_info "bucket" (.obj []) with
  | .error e => catchAll e []
  | .ok bucket_info =>
  match pyGetD s3_info "object" (.obj []) with
  | .error e => catchAll e []
  | .ok object_info =>
  match pyGet bucket_info "name" with
  | .error e => catchAll e []
  | .ok bucketOpt =>
  match pyGet object_info "key" with
  | .error e => catchAll e []
  | .ok keyOpt =>
  if !optTruthy bucketOpt || !optTruthy keyOpt then
    ({ statusCode := 400,
       body := json_dumps (.obj [("error", .str "Invalid S3 event format.")]) }, [])
  else
    let bucket := bucketOpt.getD .null
    let key := keyOpt.getD .null
    match fetch_cloudtrail_log env bucket key with
    | none =>
        ({ statusCode := 500,
           body := json_dumps (.obj [("error",
             .str ("Failed to retrieve or process CloudTrail logs: " ++ pyStr key))]) },
         [.fetch bucket key])
    | some log_data =>
    match pyGetD log_data "Records" (.arr []) with
    | .error e => catchAll e [.fetch bucket key]
    | .ok recsVal =>
    match iterElems recsVal with
    | .error e => catchAll e [.fetch bucket key]
    | .ok elems =>
    match processLoop env 0 elems with
    | (.error e, effs) => catchAll e (.fetch bucket key :: effs)
    | (.ok pm, effs) =>
        ({ statusCode := 200,
           body := json_dumps (.obj [("message",
             .str ("Successfully processed CloudTrail log: " ++ pyStr key ++
                   ". Found " ++ toString pm.2 ++ " matching events."))]) },
         .fetch bucket key :: effs)

/-! ### Derived notions used by the theorems -/

/-- Whether a record satisfies the watch-list rule, as a Boolean on values:
the value of `process_cloudtrail_event` when it does not raise, and `false`
on non-dict records. -/
def isMatch : Json → Bool
  | .obj fields =>
      (match lookupField fields "eventName" with
       | some (.str s) => criteria_events.contains s
       | _ => false)
  | _ => false

/-- An S3 `ObjectCreated` notification with a single record carrying the
given bucket name and object key, shaped as `lambda_handler` reads it. -/
def mkS3Event (bucket key : Json) : Json :=
  .obj [("Records", .arr [
    .obj [("s3", .obj [
      ("bucket", .obj [("name", bucket)]),
      ("object", .obj [("key", key)])])]])]

/-- Record attached to a `sendAttempt` effect. -/
def sendAttemptOf : Effect → Option Json
  | .sendAttempt r => some r
  | _ => none

/-- Message body attached to a `publish` effect. -/
def publishMsgOf : Effect → Option String
  | .publish _ m _ _ => some m
  | _ => none

/-- Full payload of a `publish` effect. -/
def publishCallOf : Effect → Option (String × String × String × Bool)
  | .publish t m s d => some (t, m, s, d)
  | _ => none

/-- The capability calls the record loop makes on a list of records that are
all dicts: one `sendAttempt` per matching record, followed by whatever
`send_to_sns` does for it. -/
def loopTrace (env : Env) (pubIdx : Nat) : List Json → List Effect
  | [] => []
  | r :: rest =>
      if isMatch r then
        let se := send_to_sns env pubIdx r
        (.sendAttempt r :: se) ++ loopTrace env (pubIdx + se.length) rest
      else
        loopTrace env pubIdx rest

/-- `needle` occurs contiguously inside `hay`. -/
def strInfix (needle hay : String) : Prop :=
  ∃ pre post, hay = pre ++ (needle ++ post)

/-! ### Concrete fixtures used by witnesses and counterexamples -/

/-- A watch-listed record with additional fields. -/
def recStopFs : List (String × Json) :=
  [("eventName", .str "StopLogging"), ("eventID", .str "evt-1"),
   ("awsRegion", .str "us-east-1")]

/-- A second watch-listed record (`ConsoleLogin`). -/
def recLoginFs : List (String × Json) :=
  [("eventName", .str "ConsoleLogin"), ("eventID", .str "evt-2")]

/-- A record outside the watch list. -/
def recBenignFs : List (String × Json) :=
  [("eventName", .str "AssumeRole"), ("eventID", .str "evt-3")]

/-- A concrete topic ARN. -/
def stdTopic : String := "arn:aws:sns:us-east-1:123456789012:cloudtrail-alerts"

/-- Concrete bucket-name and object-key values. -/
def bName : Json := .str "trail-bucket"

/-- Concrete object key. -/
def kName : Json := .str "AWSLogs/123/log.json.gz"

/-- The standard single-record S3 notification over the fixtures. -/
def evStd : Json := mkS3Event bName kName

/-- Environment whose fetch always yields `payload`, topic set, publishes
delivered. -/
def envWith (payload : Json) : Env :=
  { sns_topic_arn := some stdTopic,
    fetchResult := fun _ _ => .ok payload,
    publishOk := fun _ => true }

/-- Environment with the `SnsArn` variable unset. -/
def envNoTopic (payload : Json) : Env :=
  { sns_topic_arn := none,
    fetchResult := fun _ _ => .ok payload,
    publishOk := fun _ => true }

/-- Environment whose first `sns.publish` call fails to deliver. -/
def envFirstPubFails (payload : Json) : Env :=
  { sns_topic_arn := some stdTopic,
    fetchResult := fun _ _ => .ok payload,
    publishOk := fun n => n != 0 }

/-- Environment whose fetch hits corrupt (non-gzip) bytes. -/
def envGzipErr : Env :=
  { sns_topic_arn := some stdTopic,
    fetchResult := fun _ _ => .gzipError,
    publishOk := fun _ => true }

theorem Json.truthy_arr_cons (x : Json) (xs : List Json) :
    (Json.arr (x :: xs)).truthy = true := rfl

theorem process_cloudtrail_event_obj (fs : List (String × Json)) :
    process_cloudtrail_event (.obj fs) = .ok (isMatch (.obj fs)) := rfl

/-- On a list of dict records the loop never raises: it reports the full
record count, the matched count, and the `loopTrace` capability calls. -/
theorem processLoop_obj (env : Env) :
    ∀ (recs : List (List (String × Json))) (pubIdx : Nat),
      processLoop env pubIdx (recs.map Json.obj) =
        (.ok ((recs.map Json.obj).length,
              ((recs.map Json.obj).filter isMatch).length),
         loopTrace env pubIdx (recs.map Json.obj))
  | [], _ => rfl
  | fs :: rest, pubIdx => by
      have ih := processLoop_obj env rest
      cases hm : isMatch (Json.obj fs) with
      | true =>
          simp only [List.map_cons, processLoop, process_cloudtrail_event_obj, hm,
            ih, Except.map, loopTrace, List.filter_cons, List.length_cons, if_true]
      | false =>
          simp only [List.map_cons, processLoop, process_cloudtrail_event_obj, hm,
            ih, Except.map, loopTrace, List.filter_cons, List.length_cons,
            Bool.false_eq_true, if_false]

/-- `send_to_sns` never records a `sendAttempt` effect (only possibly a
`publish`). -/
theorem send_to_sns_no_sendAttempt (env : Env) (pubIdx : Nat) (r : Json) :
    (send_to_sns env pubIdx r).filterMap sendAttemptOf = [] := by
  unfold send_to_sns
  cases env.sns_topic_arn with
  | none => rfl
  | some t =>
      by_cases h : t = ""
      · simp [h]
      · cases r <;> simp [h, sendAttemptOf]

/-- When the topic is unset, `send_to_sns` makes no capability call. -/
theorem send_to_sns_topic_unset (env : Env) (henv : env.sns_topic_arn = none)
    (pubIdx : Nat) (r : Json) : send_to_sns env pubIdx r = [] := by
  unfold send_to_sns; rw [henv]

/-- When the topic is set and non-empty, `send_to_sns` on a dict record
makes exactly one `sns.publish` call carrying the serialized record. -/
theorem send_to_sns_obj (env : Env) (t : String) (henv : env.sns_topic_arn = some t)
    (ht : ¬ t = "") (pubIdx : Nat) (fs : List (String × Json)) :
    send_to_sns env pubIdx (.obj fs) =
      [.publish t (json_dumps (.obj fs)) (mkSubject fs) (env.publishOk pubIdx)] := by
  unfold send_to_sns; rw [henv]; simp [ht]

/-- The records attempted by the loop are exactly the matching records, in
source order. -/
theorem loopTrace_sendAttempts (env : Env) :
    ∀ (rs : List Json) (pubIdx : Nat),
      (loopTrace env pubIdx rs).filterMap sendAttemptOf = rs.filter isMatch
  | [], _ => rfl
  | r :: rest, pubIdx => by
      cases hm : isMatch r with
      | true =>
          simp [loopTrace, hm, List.filterMap_append, sendAttemptOf,
            send_to_sns_no_sendAttempt, loopTrace_sendAttempts env rest,
            List.filter_cons]
      | false =>
          simp [loopTrace, hm, loopTrace_sendAttempts env rest, List.filter_cons]

/-- With the topic unset, the loop's only capability calls are the
`sendAttempt`s for the matching records: no `sns.publish` ever happens. -/
theorem loopTrace_topic_unset (env : Env) (henv : env.sns_topic_arn = none) :
    ∀ (rs : List Json) (pubIdx : Nat),
      loopTrace env pubIdx rs = (rs.filter isMatch).map .sendAttempt
  | [], _ => rfl
  | r :: rest, pubIdx => by
      cases hm : isMatch r with
      | true =>
          simp [loopTrace, hm, send_to_sns_topic_unset env henv,
            loopTrace_topic_unset env henv rest, List.filter_cons]
      | false =>
          simp [loopTrace, hm, loopTrace_topic_unset env henv rest, List.filter_cons]

/-- With a non-empty topic, the loop publishes the serialization of every
matching record, in source order. -/
theorem loopTrace_publishes (env : Env) (t : String)
    (henv : env.sns_topic_arn = some t) (ht : ¬ t = "") :
    ∀ (recs : List (List (String × Json))) (pubIdx : Nat),
      (loopTrace env pubIdx (recs.map Json.obj)).filterMap publishMsgOf =
        ((recs.map Json.obj).filter isMatch).map json_dumps
  | [], _ => rfl
  | fs :: rest, pubIdx => by
      cases hm : isMatch (Json.obj fs) with
      | true =>
          simp [loopTrace, hm, send_to_sns_obj env t henv ht, List.filterMap_append,
            publishMsgOf, sendAttemptOf, loopTrace_publishes env t henv ht rest,
            List.filter_cons]
      | false =>
          simp [loopTrace, hm, loopTrace_publishes env t henv ht rest, List.filter_cons]

/-- Happy path of `lambda_handler`: a well-formed single-record S3
notification with truthy bucket and key, a fetch that parses to a JSON
object whose `Records` entry (defaulted to `[]`) is a list of dict records.
The handler fetches once, runs the loop, and returns 200 quoting the
matched count. -/
theorem lambda_handler_ok (env : Env) (b k : Json) (pfs : List (String × Json))
    (recs : List (List (String × Json)))
    (hb : b.truthy = true) (hk : k.truthy = true)
    (hfetch : env.fetchResult b k = .ok (.obj pfs))
    (hrecs : (lookupField pfs "Records").getD (.arr []) = .arr (recs.map Json.obj)) :
    lambda_handler env (mkS3Event b k) =
      ({ statusCode := 200,
         body := json_dumps (.obj [("message",
           .str ("Successfully processed CloudTrail log: " ++ pyStr k ++
                 ". Found " ++ toString ((recs.map Json.obj).filter isMatch).length ++
                 " matching events."))]) },
       .fetch b k :: loopTrace env 0 (recs.map Json.obj)) := by
  simp [lambda_handler, mkS3Event, pyGetD, pyGet, pyIndex0, lookupField,
    iterElems, fetch_cloudtrail_log, hfetch, hrecs, optTruthy, hb, hk,
    Json.truthy_arr_cons, processLoop_obj]

/-- Falsy `Records` in the notification (absent, empty, or otherwise falsy):
200 "No S3 records to process." and no capability call. -/
theorem lambda_handler_no_records (env : Env) (efs : List (String × Json))
    (rv : Json) (hrv : (lookupField efs "Records").getD (.arr []) = rv)
    (hfalsy : rv.truthy = false) :
    lambda_handler env (.obj efs) =
      ({ statusCode := 200,
         body := json_dumps (.obj [("message", .str "No S3 records to process.")]) },
       []) := by
  simp [lambda_handler, pyGetD, hrv, hfalsy]

/-- Falsy bucket name or object key on the first notification record:
400 "Invalid S3 event format." and no capability call. -/
theorem lambda_handler_invalid (env : Env) (efs frfs s3fs bfs ofs : List (String × Json))
    (rest : List Json)
    (hrecs : (lookupField efs "Records").getD (.arr []) = .arr (.obj frfs :: rest))
    (hs3 : (lookupField frfs "s3").getD (.obj []) = .obj s3fs)
    (hbi : (lookupField s3fs "bucket").getD (.obj []) = .obj bfs)
    (hoi : (lookupField s3fs "object").getD (.obj []) = .obj ofs)
    (hfalsy : optTruthy (lookupField bfs "name") = false ∨
              optTruthy (lookupField ofs "key") = false) :
    lambda_handler env (.obj efs) =
      ({ statusCode := 400,
         body := json_dumps (.obj [("error", .str "Invalid S3 event format.")]) },
       []) := by
  rcases hfalsy with hf | hf <;>
    simp [lambda_handler, pyGetD, pyGet, pyIndex0, hrecs, hs3, hbi, hoi, hf,
      Json.truthy_arr_cons]

/-- A failing fetch/decompress/parse stage: 500 with the retrieval-failure
body, and the only capability call is the fetch itself. -/
theorem lambda_handler_fetch_fail (env : Env) (b k : Json)
    (hb : b.truthy = true) (hk : k.truthy = true)
    (hferr : (env.fetchResult b k).isErr = true) :
    lambda_handler env (mkS3Event b k) =
      ({ statusCode := 500,
         body := json_dumps (.obj [("error",
           .str ("Failed to retrieve or process CloudTrail logs: " ++ pyStr k))]) },
       [.fetch b k]) := by
  have hnone : fetch_cloudtrail_log env b k = none := by
    unfold fetch_cloudtrail_log
    cases hfr : env.fetchResult b k with
    | ok d => rw [hfr] at hferr; simp [FetchResult.isErr] at hferr
    | fetchError => rfl
    | gzipError => rfl
    | jsonError => rfl
  simp [lambda_handler, mkS3Event, pyGetD, pyGet, pyIndex0, lookupField,
    optTruthy, hb, hk, hnone, Json.truthy_arr_cons]

/-- `joinComma` of a non-empty list starts with its head. -/
theorem joinComma_cons (x : String) (xs : List String) :
    ∃ suffix, joinComma (x :: xs) = x ++ suffix := by
  cases xs with
  | nil => exact ⟨"", (String.append_empty x).symm⟩
  | cons y r =>
      exact ⟨", " ++ joinComma (y :: r), by
        simp [joinComma, String.append_assoc]⟩

/-- Every element of the list occurs contiguously in its `joinComma`. -/
theorem mem_joinComma_strInfix :
    ∀ (xs : List String) (x : String), x ∈ xs → strInfix x (joinComma xs)
  | [], x, h => absurd h (List.not_mem_nil x)
  | y :: rest, x, h => by
      rcases List.mem_cons.mp h with rfl | hx
      · obtain ⟨suf, hs⟩ := joinComma_cons x rest
        exact ⟨"", suf, by rw [String.empty_append, hs]⟩
      · match rest, hx with
        | z :: r, hx =>
            obtain ⟨p, q, hpq⟩ := mem_joinComma_strInfix (z :: r) x hx
            refine ⟨(y ++ ", ") ++ p, q, ?_⟩
            rw [show joinComma (y :: z :: r) = y ++ ", " ++ joinComma (z :: r) from rfl,
              hpq]
            simp [String.append_assoc]

/-- The serialized `"key": value` entry of every field of a record is an
element of `dumpsFields`. -/
theorem dumpsFields_mem :
    ∀ (fs : List (String × Json)) (kv : String × Json), kv ∈ fs →
      (quoteStr kv.1 ++ ": " ++ json_dumps kv.2) ∈ dumpsFields fs
  | [], kv, h => absurd h (List.not_mem_nil kv)
  | (k, v) :: rest, kv, h => by
      rcases List.mem_cons.mp h with rfl | hx
      · exact List.mem_cons_self _ _
      · exact List.mem_cons_of_mem _ (dumpsFields_mem rest kv hx)

/-- `json.dumps` of a record contains the serialization of each of its
fields as a contiguous substring: the message preserves every field. -/
theorem json_dumps_field_infix (fs : List (String × Json)) (kv : String × Json)
    (h : kv ∈ fs) :
    strInfix (quoteStr kv.1 ++ ": " ++ json_dumps kv.2) (json_dumps (.obj fs)) := by
  obtain ⟨p, q, hpq⟩ := mem_joinComma_strInfix _ _ (dumpsFields_mem fs kv h)
  refine ⟨"\x7b" ++ p, q ++ "\x7d", ?_⟩
  rw [show json_dumps (.obj fs) = "\x7b" ++ joinComma (dumpsFields fs) ++ "\x7d" from rfl,
    hpq]
  simp [String.append_assoc]

/-! ### Claims -/

/-- C2: the matcher returns true iff the record's `eventName` field is
present with one of the values StopLogging, UpdateTrail, ConsoleLogin,
DeleteTrail; an absent `eventName` never matches; the near-duplicate
`matching_rule` agrees with `process_cloudtrail_event` on every record. -/
theorem claim_C2_matcher (fs : List (String × Json)) :
    (process_cloudtrail_event (.obj fs) = .ok true ↔
      ∃ s, lookupField fs "eventName" = some (.str s) ∧
        (s = "StopLogging" ∨ s = "UpdateTrail" ∨ s = "ConsoleLogin" ∨
         s = "DeleteTrail")) ∧
    (lookupField fs "eventName" = none →
      process_cloudtrail_event (.obj fs) = .ok false) ∧
    matching_rule (.obj fs) = process_cloudtrail_event (.obj fs) := by
  refine ⟨?_, ?_, rfl⟩
  · unfold process_cloudtrail_event
    cases hl : lookupField fs "eventName" with
    | none => simp [hl]
    | some v =>
        cases v <;>
          simp [hl, criteria_events, List.contains_cons, List.contains_nil,
            Bool.or_eq_true, beq_iff_eq]
  · intro hl
    simp [process_cloudtrail_event, hl]

/-- C2 witness: the matcher at concrete records. -/
theorem claim_C2_matcher_witness :
    (process_cloudtrail_event (.obj recStopFs) = .ok true ↔
      ∃ s, lookupField recStopFs "eventName" = some (.str s) ∧
        (s = "StopLogging" ∨ s = "UpdateTrail" ∨ s = "ConsoleLogin" ∨
         s = "DeleteTrail")) ∧
    (lookupField recStopFs "eventName" = none →
      process_cloudtrail_event (.obj recStopFs) = .ok false) ∧
    matching_rule (.obj recStopFs) = process_cloudtrail_event (.obj recStopFs) :=
  claim_C2_matcher recStopFs

/-- C1 counterexample: two valid payloads whose `Records` sequences have
different lengths (1 versus 2, both with zero watch-list matches) produce
*identical* success results, so the returned result cannot report the
number of records seen; only the matched count appears in the body. -/
theorem claim_C1_counterexample :
    lambda_handler (envWith (.obj [("Records", .arr [.obj recBenignFs])])) evStd =
      lambda_handler
        (envWith (.obj [("Records", .arr [.obj recBenignFs, .obj recBenignFs])])) evStd ∧
    [Json.obj recBenignFs].length = 1 ∧
    [Json.obj recBenignFs, Json.obj recBenignFs].length = 2 :=
  ⟨rfl, rfl, rfl⟩

/-- C1 (amended): for every valid payload whose `Records` sequence holds N
dict records of which M match the watch list, the handler makes exactly M
publish attempts (one `send_to_sns` call per matching record), in the same
relative order as the source sequence, and returns a 200 result whose body
reports the M matched count (the N records seen appear only in a log line,
not in the returned result). -/
theorem claim_C1_publish_attempts (env : Env) (b k : Json)
    (pfs : List (String × Json)) (recs : List (List (String × Json)))
    (hb : b.truthy = true) (hk : k.truthy = true)
    (hfetch : env.fetchResult b k = .ok (.obj pfs))
    (hrecs : (lookupField pfs "Records").getD (.arr []) = .arr (recs.map Json.obj)) :
    (lambda_handler env (mkS3Event b k)).2.filterMap sendAttemptOf =
        (recs.map Json.obj).filter isMatch ∧
    (lambda_handler env (mkS3Event b k)).1.statusCode = 200 ∧
    (lambda_handler env (mkS3Event b k)).1.body =
      json_dumps (.obj [("message",
        .str ("Successfully processed CloudTrail log: " ++ pyStr k ++
              ". Found " ++ toString ((recs.map Json.obj).filter isMatch).length ++
              " matching events."))]) := by
  rw [lambda_handler_ok env b k pfs recs hb hk hfetch hrecs]
  refine ⟨?_, rfl, rfl⟩
  simp [List.filterMap_cons, sendAttemptOf, loopTrace_sendAttempts]

/-- C1 witness: a 2-record payload with 1 match; the single attempt is for
the matching record and the body reports one match. -/
theorem claim_C1_publish_attempts_witness :
    bName.truthy = true ∧ kName.truthy = true ∧
    (lambda_handler (envWith (.obj [("Records",
        .arr [.obj recStopFs, .obj recBenignFs])])) (mkS3Event bName kName)).2.filterMap
        sendAttemptOf =
      ([Json.obj recStopFs, Json.obj recBenignFs].filter isMatch) :=
  ⟨rfl, rfl,
    (claim_C1_publish_attempts (envWith (.obj [("Records",
        .arr [.obj recStopFs, .obj recBenignFs])])) bName kName
      [("Records", .arr [.obj recStopFs, .obj recBenignFs])]
      [recStopFs, recBenignFs] rfl rfl rfl rfl).1⟩

/-- `sendAttempt` effects carry no `sns.publish` call. -/
theorem filterMap_publishCall_sendAttempts (rs : List Json) :
    (rs.map Effect.sendAttempt).filterMap publishCallOf = [] := by
  induction rs with
  | nil => rfl
  | cons r rest ih => simp [publishCallOf, ih]

/-- Extracting the records back out of a pure-`sendAttempt` trace. -/
theorem filterMap_sendAttempt_map (rs : List Json) :
    (rs.map Effect.sendAttempt).filterMap sendAttemptOf = rs := by
  induction rs with
  | nil => rfl
  | cons r rest ih => simp [sendAttemptOf, ih]

/-- C3: when the storage fetch fails, the gzip decompression fails, or the
decompressed bytes are not valid JSON, the invocation returns a 500 failure
result and makes zero publish attempts (its only capability call is the
fetch itself). -/
theorem claim_C3_retrieval_failure (env : Env) (b k : Json)
    (hb : b.truthy = true) (hk : k.truthy = true)
    (hferr : (env.fetchResult b k).isErr = true) :
    (lambda_handler env (mkS3Event b k)).1.statusCode = 500 ∧
    (lambda_handler env (mkS3Event b k)).2.filterMap sendAttemptOf = [] ∧
    (lambda_handler env (mkS3Event b k)).2.filterMap publishCallOf = [] ∧
    lambda_handler env (mkS3Event b k) =
      ({ statusCode := 500,
         body := json_dumps (.obj [("error",
           .str ("Failed to retrieve or process CloudTrail logs: " ++ pyStr k))]) },
       [.fetch b k]) := by
  have h := lambda_handler_fetch_fail env b k hb hk hferr
  rw [h]
  exact ⟨rfl, rfl, rfl, rfl⟩

/-- C3 witness: corrupt gzip bytes give a 500 with no publish attempt. -/
theorem claim_C3_retrieval_failure_witness :
    bName.truthy = true ∧ kName.truthy = true ∧
    (envGzipErr.fetchResult bName kName).isErr = true ∧
    (lambda_handler envGzipErr (mkS3Event bName kName)).1.statusCode = 500 ∧
    (lambda_handler envGzipErr (mkS3Event bName kName)).2.filterMap publishCallOf = [] :=
  ⟨rfl, rfl, rfl, (claim_C3_retrieval_failure envGzipErr bName kName rfl rfl rfl).1,
   (claim_C3_retrieval_failure envGzipErr bName kName rfl rfl rfl).2.2.1⟩

/-- C4: with the topic identifier unset, a payload of dict records still
yields a 200 result whose body reports the matched count, all matching
records are still attempted, and zero actual `sns.publish` calls occur. -/
theorem claim_C4_topic_unset (env : Env) (b k : Json)
    (pfs : List (String × Json)) (recs : List (List (String × Json)))
    (henv : env.sns_topic_arn = none)
    (hb : b.truthy = true) (hk : k.truthy = true)
    (hfetch : env.fetchResult b k = .ok (.obj pfs))
    (hrecs : (lookupField pfs "Records").getD (.arr []) = .arr (recs.map Json.obj)) :
    (lambda_handler env (mkS3Event b k)).1.statusCode = 200 ∧
    (lambda_handler env (mkS3Event b k)).1.body =
      json_dumps (.obj [("message",
        .str ("Successfully processed CloudTrail log: " ++ pyStr k ++
              ". Found " ++ toString ((recs.map Json.obj).filter isMatch).length ++
              " matching events."))]) ∧
    (lambda_handler env (mkS3Event b k)).2.filterMap publishCallOf = [] ∧
    (lambda_handler env (mkS3Event b k)).2.filterMap sendAttemptOf =
      (recs.map Json.obj).filter isMatch := by
  rw [lambda_handler_ok env b k pfs recs hb hk hfetch hrecs,
    loopTrace_topic_unset env henv]
  refine ⟨rfl, rfl, ?_, ?_⟩
  · simp only [List.filterMap_cons, publishCallOf, filterMap_publishCall_sendAttempts]
  · simp only [List.filterMap_cons, sendAttemptOf, filterMap_sendAttempt_map]

/-- C4 witness: topic unset, one matching record of two, 200 with zero
publish calls. -/
theorem claim_C4_topic_unset_witness :
    (envNoTopic (.obj [("Records", .arr [.obj recStopFs, .obj recBenignFs])])).sns_topic_arn
        = none ∧
    (lambda_handler (envNoTopic (.obj [("Records",
        .arr [.obj recStopFs, .obj recBenignFs])])) (mkS3Event bName kName)).1.statusCode
        = 200 ∧
    (lambda_handler (envNoTopic (.obj [("Records",
        .arr [.obj recStopFs, .obj recBenignFs])])) (mkS3Event bName kName)).2.filterMap
        publishCallOf = [] :=
  ⟨rfl,
   (claim_C4_topic_unset (envNoTopic (.obj [("Records",
      .arr [.obj recStopFs, .obj recBenignFs])])) bName kName
      [("Records", .arr [.obj recStopFs, .obj recBenignFs])]
      [recStopFs, recBenignFs] rfl rfl rfl rfl rfl).1,
   (claim_C4_topic_unset (envNoTopic (.obj [("Records",
      .arr [.obj recStopFs, .obj recBenignFs])])) bName kName
      [("Records", .arr [.obj recStopFs, .obj recBenignFs])]
      [recStopFs, recBenignFs] rfl rfl rfl rfl rfl).2.2.1⟩

/-- C6: a notification containing zero records yields a 200 success result
and an empty capability trace — neither the storage retrieval nor the
publish capability is invoked. -/
theorem claim_C6_zero_records (env : Env) (efs : List (String × Json))
    (hrecs : (lookupField efs "Records").getD (.arr []) = .arr []) :
    lambda_handler env (.obj efs) =
      ({ statusCode := 200,
         body := json_dumps (.obj [("message", .str "No S3 records to process.")]) },
       []) :=
  lambda_handler_no_records env efs (.arr []) hrecs rfl

/-- C6 witness: the empty-`Records` notification. -/
theorem claim_C6_zero_records_witness :
    (lookupField [("Records", Json.arr [])] "Records").getD (.arr []) = .arr [] ∧
    lambda_handler (envWith (.obj [])) (.obj [("Records", Json.arr [])]) =
      ({ statusCode := 200,
         body := json_dumps (.obj [("message", .str "No S3 records to process.")]) },
       []) :=
  ⟨rfl, claim_C6_zero_records (envWith (.obj [])) [("Records", Json.arr [])] rfl⟩

/-- C7: a payload that is valid gzip+JSON but whose `Records` field is
absent or the empty list yields a 200 result reporting zero matches, with
the fetch as the only capability call — so zero publish attempts; the
missing field acts as an empty sequence, not as an error. -/
theorem claim_C7_records_default (env : Env) (b k : Json)
    (pfs : List (String × Json))
    (hb : b.truthy = true) (hk : k.truthy = true)
    (hfetch : env.fetchResult b k = .ok (.obj pfs))
    (hrecs : lookupField pfs "Records" = none ∨
             lookupField pfs "Records" = some (.arr [])) :
    lambda_handler env (mkS3Event b k) =
      ({ statusCode := 200,
         body := json_dumps (.obj [("message",
           .str ("Successfully processed CloudTrail log: " ++ pyStr k ++
                 ". Found " ++ toString (0 : Nat) ++ " matching events."))]) },
       [.fetch b k]) := by
  have h0 : (lookupField pfs "Records").getD (.arr []) =
      .arr (([] : List (List (String × Json))).map Json.obj) := by
    rcases hrecs with h | h <;> simp [h]
  exact lambda_handler_ok env b k pfs [] hb hk hfetch h0

/-- C7 witness: a payload without a `Records` field. -/
theorem claim_C7_records_default_witness :
    ((envWith (.obj [("Digest", .str "d")])).fetchResult bName kName =
        .ok (.obj [("Digest", .str "d")])) ∧
    (lookupField [("Digest", Json.str "d")] "Records" = none ∨
     lookupField [("Digest", Json.str "d")] "Records" = some (.arr [])) ∧
    lambda_handler (envWith (.obj [("Digest", .str "d")])) (mkS3Event bName kName) =
      ({ statusCode := 200,
         body := json_dumps (.obj [("message",
           .str ("Successfully processed CloudTrail log: " ++ pyStr kName ++
                 ". Found " ++ toString (0 : Nat) ++ " matching events."))]) },
       [.fetch bName kName]) :=
  ⟨rfl, Or.inl rfl,
   claim_C7_records_default (envWith (.obj [("Digest", .str "d")])) bName kName
     [("Digest", .str "d")] rfl rfl rfl (Or.inl rfl)⟩

/-- C5: a notification whose first record lacks the bucket name or the
object key returns the 400 invalid-input result with an empty capability
trace — the storage retrieval is never invoked. -/
theorem claim_C5_missing_bucket_or_key (env : Env)
    (efs frfs s3fs bfs ofs : List (String × Json)) (rest : List Json)
    (hrecs : (lookupField efs "Records").getD (.arr []) = .arr (.obj frfs :: rest))
    (hs3 : (lookupField frfs "s3").getD (.obj []) = .obj s3fs)
    (hbi : (lookupField s3fs "bucket").getD (.obj []) = .obj bfs)
    (hoi : (lookupField s3fs "object").getD (.obj []) = .obj ofs)
    (hmiss : lookupField bfs "name" = none ∨ lookupField ofs "key" = none) :
    lambda_handler env (.obj efs) =
      ({ statusCode := 400,
         body := json_dumps (.obj [("error", .str "Invalid S3 event format.")]) },
       []) := by
  apply lambda_handler_invalid env efs frfs s3fs bfs ofs rest hrecs hs3 hbi hoi
  rcases hmiss with h | h
  · exact Or.inl (by rw [h]; rfl)
  · exact Or.inr (by rw [h]; rfl)

/-- C5 witness: a notification whose first record has a bucket name but no
`object`/`key` entry at all. -/
theorem claim_C5_missing_bucket_or_key_witness :
    (lookupField [("s3", Json.obj [("bucket", Json.obj [("name", Json.str "b")])])]
        "s3").getD (.obj []) = .obj [("bucket", Json.obj [("name", Json.str "b")])] ∧
    lambda_handler (envWith (.obj []))
      (.obj [("Records", .arr [.obj [("s3",
        Json.obj [("bucket", Json.obj [("name", Json.str "b")])])]])]) =
      ({ statusCode := 400,
         body := json_dumps (.obj [("error", .str "Invalid S3 event format.")]) },
       []) :=
  ⟨rfl,
   claim_C5_missing_bucket_or_key (envWith (.obj []))
     [("Records", .arr [.obj [("s3",
        Json.obj [("bucket", Json.obj [("name", Json.str "b")])])]])]
     [("s3", Json.obj [("bucket", Json.obj [("name", Json.str "b")])])]
     [("bucket", Json.obj [("name", Json.str "b")])]
     [("name", Json.str "b")] [] [] rfl rfl rfl rfl (Or.inr rfl)⟩

/-- C10: an empty-string bucket name or object key (field present but
`""`) is treated exactly like a missing field: 400 invalid-input result,
empty capability trace, storage retrieval never invoked. -/
theorem claim_C10_empty_string_bucket_key (env : Env)
    (efs frfs s3fs bfs ofs : List (String × Json)) (rest : List Json)
    (hrecs : (lookupField efs "Records").getD (.arr []) = .arr (.obj frfs :: rest))
    (hs3 : (lookupField frfs "s3").getD (.obj []) = .obj s3fs)
    (hbi : (lookupField s3fs "bucket").getD (.obj []) = .obj bfs)
    (hoi : (lookupField s3fs "object").getD (.obj []) = .obj ofs)
    (hempty : lookupField bfs "name" = some (.str "") ∨
              lookupField ofs "key" = some (.str "")) :
    lambda_handler env (.obj efs) =
      ({ statusCode := 400,
         body := json_dumps (.obj [("error", .str "Invalid S3 event format.")]) },
       []) := by
  apply lambda_handler_invalid env efs frfs s3fs bfs ofs rest hrecs hs3 hbi hoi
  rcases hempty with h | h
  · exact Or.inl (by rw [h]; rfl)
  · exact Or.inr (by rw [h]; rfl)

/-- C10 witness: bucket name present but equal to `""`. -/
theorem claim_C10_empty_string_bucket_key_witness :
    lookupField [("name", Json.str "")] "name" = some (.str "") ∧
    lambda_handler (envWith (.obj []))
      (.obj [("Records", .arr [.obj [("s3", Json.obj [
        ("bucket", Json.obj [("name", Json.str "")]),
        ("object", Json.obj [("key", Json.str "k")])])]])]) =
      ({ statusCode := 400,
         body := json_dumps (.obj [("error", .str "Invalid S3 event format.")]) },
       []) :=
  ⟨rfl,
   claim_C10_empty_string_bucket_key (envWith (.obj []))
     [("Records", .arr [.obj [("s3", Json.obj [
        ("bucket", Json.obj [("name", Json.str "")]),
        ("object", Json.obj [("key", Json.str "k")])])]])]
     [("s3", Json.obj [
        ("bucket", Json.obj [("name", Json.str "")]),
        ("object", Json.obj [("key", Json.str "k")])])]
     [("bucket", Json.obj [("name", Json.str "")]),
      ("object", Json.obj [("key", Json.str "k")])]
     [("name", Json.str "")] [("key", Json.str "k")] [] rfl rfl rfl rfl
     (Or.inl rfl)⟩

/-- C8: with at least two matched records and a delivery failure on one of
the publish calls, every matching record is still attempted (the full
matched sublist, in order), every matched record's `sns.publish` call is
still made with its serialized body, and the invocation still returns
200 — one failed publish neither blocks later records nor changes the
overall status. -/
theorem claim_C8_publish_failure_isolated (env : Env) (b k : Json)
    (pfs : List (String × Json)) (recs : List (List (String × Json)))
    (t : String)
    (hb : b.truthy = true) (hk : k.truthy = true)
    (hfetch : env.fetchResult b k = .ok (.obj pfs))
    (hrecs : (lookupField pfs "Records").getD (.arr []) = .arr (recs.map Json.obj))
    (henv : env.sns_topic_arn = some t) (ht : ¬ t = "")
    (hM : 2 ≤ ((recs.map Json.obj).filter isMatch).length)
    (i : Nat) (hi : i < ((recs.map Json.obj).filter isMatch).length)
    (hfail : env.publishOk i = false) :
    (lambda_handler env (mkS3Event b k)).2.filterMap sendAttemptOf =
      (recs.map Json.obj).filter isMatch ∧
    (lambda_handler env (mkS3Event b k)).2.filterMap publishMsgOf =
      ((recs.map Json.obj).filter isMatch).map json_dumps ∧
    (lambda_handler env (mkS3Event b k)).1.statusCode = 200 := by
  rw [lambda_handler_ok env b k pfs recs hb hk hfetch hrecs]
  refine ⟨?_, ?_, rfl⟩
  · simp only [List.filterMap_cons, sendAttemptOf, loopTrace_sendAttempts]
  · simp only [List.filterMap_cons, publishMsgOf,
      loopTrace_publishes env t henv ht]

/-- C8 witness: two matching records, first publish fails to deliver; both
are attempted and published in order and the status is 200. -/
theorem claim_C8_publish_failure_isolated_witness :
    (envFirstPubFails (.obj [("Records", .arr [.obj recStopFs, .obj recLoginFs])])).publishOk
        0 = false ∧
    (lambda_handler (envFirstPubFails (.obj [("Records",
        .arr [.obj recStopFs, .obj recLoginFs])])) (mkS3Event bName kName)).2.filterMap
        publishMsgOf =
      ([Json.obj recStopFs, Json.obj recLoginFs].filter isMatch).map json_dumps ∧
    (lambda_handler (envFirstPubFails (.obj [("Records",
        .arr [.obj recStopFs, .obj recLoginFs])])) (mkS3Event bName kName)).1.statusCode
        = 200 :=
  ⟨rfl,
   (claim_C8_publish_failure_isolated
      (envFirstPubFails (.obj [("Records", .arr [.obj recStopFs, .obj recLoginFs])]))
      bName kName [("Records", .arr [.obj recStopFs, .obj recLoginFs])]
      [recStopFs, recLoginFs] stdTopic rfl rfl rfl rfl rfl (by decide)
      (by decide) 0 (by decide) rfl).2.1,
   (claim_C8_publish_failure_isolated
      (envFirstPubFails (.obj [("Records", .arr [.obj recStopFs, .obj recLoginFs])]))
      bName kName [("Records", .arr [.obj recStopFs, .obj recLoginFs])]
      [recStopFs, recLoginFs] stdTopic rfl rfl rfl rfl rfl (by decide)
      (by decide) 0 (by decide) rfl).2.2⟩

/-- C9: for a matched dict record and a configured topic, `send_to_sns`
hands the publish capability exactly one message whose body is the
serialization of the original, unmodified record, and that serialization
contains every original field's `"key": value` entry as a contiguous
substring — all fields are preserved, not only `eventName`. -/
theorem claim_C9_record_preserved (env : Env) (t : String) (pubIdx : Nat)
    (fs : List (String × Json))
    (hmatch : process_cloudtrail_event (.obj fs) = .ok true)
    (henv : env.sns_topic_arn = some t) (ht : ¬ t = "") :
    send_to_sns env pubIdx (.obj fs) =
      [.publish t (json_dumps (.obj fs)) (mkSubject fs) (env.publishOk pubIdx)] ∧
    ∀ kv ∈ fs,
      strInfix (quoteStr kv.1 ++ ": " ++ json_dumps kv.2) (json_dumps (.obj fs)) :=
  ⟨send_to_sns_obj env t henv ht pubIdx fs,
   fun kv hkv => json_dumps_field_infix fs kv hkv⟩

/-- C9 witness: the three-field `StopLogging` record, topic configured. -/
theorem claim_C9_record_preserved_witness :
    process_cloudtrail_event (.obj recStopFs) = .ok true ∧
    ¬ stdTopic = "" ∧
    send_to_sns (envWith (.obj [])) 0 (.obj recStopFs) =
      [.publish stdTopic (json_dumps (.obj recStopFs)) (mkSubject recStopFs)
        ((envWith (.obj [])).publishOk 0)] :=
  ⟨rfl, by decide,
   (claim_C9_record_preserved (envWith (.obj [])) stdTopic 0 recStopFs rfl rfl
     (by decide)).1⟩
